import Mathlib

/-!
Verification of the NeonGame arena-survival simulation core
(src/components/NeonGame.tsx).

The simulation is embedded shallowly: JavaScript numbers become real
numbers, the mutable `gameState` ref becomes an explicit state record
threaded through the per-tick passes, and every call to `Math.random()`
is drawn from an explicit stream `rnd : Nat -> Real` whose successive
values are consumed left to right in source order.  The React `useState`
mirrors (`score`, `health`, `gameOver`, `wave`) are kept in a separate
`ViewState` record, updated exactly where the source calls the setters.
-/

open Real

noncomputable section

/-- 2D vector, `type Vector2 = { x: number; y: number }`. -/
@[ext] structure Vec2 where
  x : ℝ
  y : ℝ

/-- `vecAdd` from the source. -/
def vecAdd (v1 v2 : Vec2) : Vec2 := ⟨v1.x + v2.x, v1.y + v2.y⟩

/-- `vecSub` from the source. -/
def vecSub (v1 v2 : Vec2) : Vec2 := ⟨v1.x - v2.x, v1.y - v2.y⟩

/-- `vecMult` from the source. -/
def vecMult (v : Vec2) (s : ℝ) : Vec2 := ⟨v.x * s, v.y * s⟩

/-- `vecLen`: `Math.sqrt(v.x * v.x + v.y * v.y)`. -/
def vecLen (v : Vec2) : ℝ := Real.sqrt (v.x * v.x + v.y * v.y)

/-- `vecNorm`: zero-length vectors are mapped to the zero vector, any
other vector is divided by its length. -/
def vecNorm (v : Vec2) : Vec2 :=
  if vecLen v = 0 then ⟨0, 0⟩ else ⟨v.x / vecLen v, v.y / vecLen v⟩

/-- `Math.atan2(y, x)`, modelled as the argument of the complex number
`x + i y` (the same principal value in `(-pi, pi]`). -/
def atan2 (y x : ℝ) : ℝ := Complex.arg ⟨x, y⟩

/-- `type EntityType = 'PLAYER' | 'ZOMBIE_FAST' | 'ZOMBIE_TANK' | 'BULLET' | 'PARTICLE'`. -/
inductive EntityType where
  | PLAYER
  | ZOMBIE_FAST
  | ZOMBIE_TANK
  | BULLET
  | PARTICLE
deriving DecidableEq

/-- `ent.type.startsWith('ZOMBIE')`. -/
def isZombie : EntityType → Bool
  | EntityType.ZOMBIE_FAST => true
  | EntityType.ZOMBIE_TANK => true
  | _ => false

/-- `interface Entity`.  The source gives each entity a fresh random
string id (`Math.random().toString()`); here the id keeps the raw random
scalar.  `life` is health for combat kinds and remaining lifetime for
particles. -/
@[ext] structure Entity where
  id : ℝ
  type : EntityType
  pos : Vec2
  vel : Vec2
  radius : ℝ
  color : String
  life : ℝ
  maxLife : ℝ
  angle : ℝ
  markedForDeletion : Bool

def FRICTION : ℝ := 0.9

def BULLET_SPEED : ℝ := 18

def FIRERATE : ℝ := 8

def BULLET_COLOR : String := "#ffff00"

def ZOMBIE_FAST_COLOR : String := "#ff0055"

def ZOMBIE_TANK_COLOR : String := "#aa00ff"

def BLOOD_COLOR_1 : String := "#00ff00"

def BLOOD_COLOR_2 : String := "#ff0055"

/-- The `player` record inside `gameState`. -/
@[ext] structure Player where
  pos : Vec2
  vel : Vec2
  angle : ℝ
  cooldown : ℝ
  maxHealth : ℝ
  currHealth : ℝ
  recoil : ℝ

/-- The `mouse` record inside `gameState`. -/
@[ext] structure MouseState where
  x : ℝ
  y : ℝ
  down : Bool

/-- The `camera` record inside `gameState`. -/
@[ext] structure Camera where
  x : ℝ
  y : ℝ
  shake : ℝ

/-- The mutable `gameState` ref (the simulation state proper). -/
@[ext] structure SimState where
  player : Player
  entities : List Entity
  particles : List Entity
  keys : List String
  mouse : MouseState
  camera : Camera
  waveTimer : ℕ
  score : ℕ
  isRunning : Bool
  frameCount : ℕ

/-- The React `useState` mirrors read by the presentation shell. -/
@[ext] structure ViewState where
  score : ℕ
  health : ℝ
  gameOver : Bool
  wave : ℕ

/-- Simulation state together with the exposed view. -/
@[ext] structure GameState where
  sim : SimState
  view : ViewState

/-- `const spawnRate = Math.max(20, 100 - (Math.floor(state.score / 500) * 5))`.
`score` is a natural number in the source (it starts at 0 and only ever
gains 10 or 50), so `Math.floor(score / 500)` is natural division. -/
def spawnRate (score : ℕ) : ℕ := max 20 (100 - score / 500 * 5)

/-- `const speed = ent.type === 'ZOMBIE_FAST' ? 2.5 + (state.score/5000) : 1.2`. -/
def zombieSpeed (t : EntityType) (score : ℕ) : ℝ :=
  if t = EntityType.ZOMBIE_FAST then 2.5 + (score : ℝ) / 5000 else 1.2

/-- C3: on every tick the spawn interval is `max(20, 100 - 5 * floor(score/500))`,
it is monotonically non-increasing as a function of the score, and it never
drops below the floor of 20. -/
theorem spawnRate_formula_monotone_floor :
    (∀ s : ℕ, spawnRate s = max 20 (100 - 5 * (s / 500))) ∧
    (∀ s t : ℕ, s ≤ t → spawnRate t ≤ spawnRate s) ∧
    (∀ s : ℕ, 20 ≤ spawnRate s) := by
  refine ⟨fun s => by rw [spawnRate, Nat.mul_comm], fun s t hst => ?_,
    fun s => le_max_left _ _⟩
  unfold spawnRate
  refine max_le_max le_rfl ?_
  exact Nat.sub_le_sub_left (Nat.mul_le_mul_right 5 (Nat.div_le_div_right hst)) 100

/-- Non-vacuity of C3 at concrete scores: the interval at score 600 is below
the one at score 0, and both evaluate as the formula says. -/
theorem spawnRate_formula_monotone_floor_witness :
    spawnRate 600 ≤ spawnRate 0 ∧ spawnRate 0 = 100 ∧ spawnRate 600 = 95 ∧
    spawnRate 10000 = 20 :=
  ⟨spawnRate_formula_monotone_floor.2.1 0 600 (by decide), by decide, by decide, by decide⟩

/-- C7 (amended): the fast enemy's speed is the strictly increasing linear
function `2.5 + score/5000` of the score, while the tank enemy's speed is
the constant `1.2`, independent of the score. -/
theorem zombieSpeed_fast_linear_tank_constant :
    (∀ s : ℕ, zombieSpeed EntityType.ZOMBIE_FAST s = 2.5 + (s : ℝ) / 5000) ∧
    (∀ s t : ℕ, s < t →
      zombieSpeed EntityType.ZOMBIE_FAST s < zombieSpeed EntityType.ZOMBIE_FAST t) ∧
    (∀ s : ℕ, zombieSpeed EntityType.ZOMBIE_TANK s = 1.2) := by
  refine ⟨fun s => by simp [zombieSpeed], fun s t hst => ?_, fun s => by simp [zombieSpeed]⟩
  have e1 : zombieSpeed EntityType.ZOMBIE_FAST s = 2.5 + (s : ℝ) / 5000 := by simp [zombieSpeed]
  have e2 : zombieSpeed EntityType.ZOMBIE_FAST t = 2.5 + (t : ℝ) / 5000 := by simp [zombieSpeed]
  rw [e1, e2]
  have h : (s : ℝ) < t := Nat.cast_lt.mpr hst
  linarith

/-- Non-vacuity of C7's amended statement at concrete scores. -/
theorem zombieSpeed_fast_linear_tank_constant_witness :
    zombieSpeed EntityType.ZOMBIE_FAST 0 < zombieSpeed EntityType.ZOMBIE_FAST 5000 :=
  zombieSpeed_fast_linear_tank_constant.2.1 0 5000 (by norm_num)

/-- C7 (counterexample): the claim says the speed of both enemy kinds is a
strictly increasing function of the score; for the tank kind the speed at
score 5000 equals the speed at score 0, so it is not strictly increasing. -/
theorem zombieSpeed_tank_not_strictly_increasing :
    zombieSpeed EntityType.ZOMBIE_TANK 5000 = zombieSpeed EntityType.ZOMBIE_TANK 0 ∧
    ¬ zombieSpeed EntityType.ZOMBIE_TANK 0 < zombieSpeed EntityType.ZOMBIE_TANK 5000 := by
  constructor
  · simp [zombieSpeed]
  · simp [zombieSpeed]

/-- C8: `vecNorm` of the zero vector is the zero vector (the division is
never taken), and `vecNorm` of any nonzero vector has length exactly 1. -/
theorem vecNorm_zero_and_unit :
    vecNorm ⟨0, 0⟩ = ⟨0, 0⟩ ∧ ∀ v : Vec2, v ≠ ⟨0, 0⟩ → vecLen (vecNorm v) = 1 := by
  constructor
  · rw [vecNorm, if_pos]
    show Real.sqrt (0 * 0 + 0 * 0) = 0
    simp
  · intro v hv
    have hS : 0 < v.x * v.x + v.y * v.y := by
      rcases eq_or_ne v.x 0 with hx | hx
      · have hy : v.y ≠ 0 := by
          intro hy
          exact hv (by ext <;> simp [hx, hy])
        nlinarith [mul_self_pos.mpr hy, mul_self_nonneg v.x]
      · nlinarith [mul_self_pos.mpr hx, mul_self_nonneg v.y]
    have hL : 0 < vecLen v := Real.sqrt_pos.mpr hS
    have hmul : vecLen v * vecLen v = v.x * v.x + v.y * v.y :=
      Real.mul_self_sqrt hS.le
    rw [vecNorm, if_neg hL.ne']
    have hone : v.x / vecLen v * (v.x / vecLen v) + v.y / vecLen v * (v.y / vecLen v) = 1 := by
      field_simp
      linarith [hmul]
    show Real.sqrt (v.x / vecLen v * (v.x / vecLen v) + v.y / vecLen v * (v.y / vecLen v)) = 1
    rw [hone, Real.sqrt_one]

/-- Non-vacuity of C8 at a concrete nonzero vector. -/
theorem vecNorm_zero_and_unit_witness : vecLen (vecNorm ⟨3, 4⟩) = 1 :=
  vecNorm_zero_and_unit.2 ⟨3, 4⟩ (by
    intro h
    have hx := congrArg Vec2.x h
    norm_num at hx)

/-- `addTrauma`: increase the camera shake, clamped at 25. -/
def addTrauma (amount shake : ℝ) : ℝ := min (shake + amount) 25

/-- One particle pushed by `createParticle`.  Each particle consumes six
random draws, in the order the source makes them: the burst direction
angle, the speed, the id, the radius, the lifetime jitter, and the drawn
`angle` field. -/
def mkParticle (rnd : ℕ → ℝ) (k : ℕ) (pos : Vec2) (color : String)
    (speed lifeBase : ℝ) : Entity :=
  { id := rnd (k + 2)
    type := EntityType.PARTICLE
    pos := pos
    vel := ⟨Real.cos (rnd k * Real.pi * 2) * (rnd (k + 1) * speed),
            Real.sin (rnd k * Real.pi * 2) * (rnd (k + 1) * speed)⟩
    radius := rnd (k + 3) * 3 + 1
    color := color
    life := lifeBase + rnd (k + 4) * 30
    maxLife := lifeBase + 30
    angle := rnd (k + 5) * Real.pi * 2
    markedForDeletion := false }

/-- `createParticle`: one burst of `count` particles at `pos`, appended to
the particle list by the caller. -/
def createParticle (rnd : ℕ → ℝ) (k : ℕ) (pos : Vec2) (count : ℕ) (color : String)
    (speed lifeBase : ℝ) : List Entity :=
  (List.range count).map fun i => mkParticle rnd (k + 6 * i) pos color speed lifeBase

/-- The initial `gameState` of a session (source lines 44-63), with the
player position set to the viewport centre by the first `handleResize`
call (which fires while `frameCount` is still 0, as section 7 of the
spec describes). -/
def freshSim (w h : ℝ) : SimState :=
  { player := { pos := ⟨w / 2, h / 2⟩, vel := ⟨0, 0⟩, angle := 0, cooldown := 0,
                maxHealth := 100, currHealth := 100, recoil := 0 }
    entities := []
    particles := []
    keys := []
    mouse := { x := 0, y := 0, down := false }
    camera := { x := 0, y := 0, shake := 0 }
    waveTimer := 0
    score := 0
    isRunning := true
    frameCount := 0 }

/-- The initial exposed view of a session. -/
def freshView : ViewState := { score := 0, health := 100, gameOver := false, wave := 1 }

/-- `restartGame` (source lines 98-114): exactly the fields it assigns. -/
def restartGame (w h : ℝ) (g : GameState) : GameState :=
  { sim := { g.sim with
      player := { g.sim.player with pos := ⟨w / 2, h / 2⟩, currHealth := 100 }
      entities := []
      particles := []
      score := 0
      waveTimer := 0
      isRunning := true }
    view := { score := 0, health := 100, gameOver := false, wave := 1 } }

/-- WASD input vector: each held key contributes -1 or +1 on its axis. -/
def moveInput (keys : List String) : Vec2 :=
  ⟨(if "KeyA" ∈ keys then (-1 : ℝ) else 0) + (if "KeyD" ∈ keys then 1 else 0),
   (if "KeyW" ∈ keys then (-1 : ℝ) else 0) + (if "KeyS" ∈ keys then 1 else 0)⟩

/-- Player movement: acceleration toward the normalized input direction,
friction, integration, and the 20 px clamp inside the viewport. -/
def playerMove (w h : ℝ) (g : GameState) : GameState :=
  let moveDir := vecNorm (moveInput g.sim.keys)
  let vel1 := vecMult (vecAdd g.sim.player.vel (vecMult moveDir 0.8)) FRICTION
  let pos1 := vecAdd g.sim.player.pos vel1
  let pos2 : Vec2 := ⟨max 20 (min (w - 20) pos1.x), max 20 (min (h - 20) pos1.y)⟩
  { g with sim.player := { g.sim.player with vel := vel1, pos := pos2 } }

/-- Aim: `state.player.angle = Math.atan2(dy, dx)` toward the pointer. -/
def aimPlayer (g : GameState) : GameState :=
  { g with sim.player.angle :=
      atan2 (g.sim.mouse.y - g.sim.player.pos.y) (g.sim.mouse.x - g.sim.player.pos.x) }

/-- Cooldown decrement and firing: when the pointer is down and the
cooldown has run out, reset cooldown and recoil, add trauma, push one
bullet with random angular spread, and emit a 3-particle muzzle flash. -/
def shootPass (rnd : ℕ → ℝ) (g : GameState) (k : ℕ) : GameState × ℕ :=
  let cd := if g.sim.player.cooldown > 0 then g.sim.player.cooldown - 1
            else g.sim.player.cooldown
  let g1 := { g with sim.player.cooldown := cd }
  if g1.sim.mouse.down = true ∧ cd ≤ 0 then
    let spread := (rnd k - 0.5) * 0.1
    let bulletVel : Vec2 := ⟨Real.cos (g1.sim.player.angle + spread) * BULLET_SPEED,
                             Real.sin (g1.sim.player.angle + spread) * BULLET_SPEED⟩
    let muzzlePos := vecAdd g1.sim.player.pos (vecMult (vecNorm bulletVel) 25)
    let bullet : Entity :=
      { id := rnd (k + 1), type := EntityType.BULLET, pos := muzzlePos, vel := bulletVel,
        radius := 3, color := BULLET_COLOR, life := 1, maxLife := 1,
        angle := g1.sim.player.angle, markedForDeletion := false }
    ({ g1 with sim := { g1.sim with
        player := { g1.sim.player with cooldown := FIRERATE, recoil := 6 },
        camera := { g1.sim.camera with shake := addTrauma 4 g1.sim.camera.shake },
        entities := g1.sim.entities ++ [bullet],
        particles := g1.sim.particles ++ createParticle rnd (k + 2) muzzlePos 3 "#ffffaa" 2 10 } },
     k + 20)
  else (g1, k)

/-- `if (state.player.recoil > 0) state.player.recoil *= 0.8`. -/
def recoilDecay (g : GameState) : GameState :=
  if g.sim.player.recoil > 0 then { g with sim.player.recoil := g.sim.player.recoil * 0.8 }
  else g

/-- Wave spawning: increment the wave timer; when the (incremented) timer
divides by the current spawn interval, push one enemy at a random
viewport edge, a tank when the weighted coin lands above 0.85. -/
def spawnPass (w h : ℝ) (rnd : ℕ → ℝ) (g : GameState) (k : ℕ) : GameState × ℕ :=
  let g1 := { g with sim.waveTimer := g.sim.waveTimer + 1 }
  if g1.sim.waveTimer % spawnRate g1.sim.score = 0 then
    let side : ℤ := ⌊rnd k * 4⌋
    let spawnPos : Vec2 :=
      if side = 0 then ⟨rnd (k + 1) * w, -50⟩
      else if side = 1 then ⟨w + 50, rnd (k + 1) * h⟩
      else if side = 2 then ⟨rnd (k + 1) * w, h + 50⟩
      else ⟨-50, rnd (k + 1) * h⟩
    let isTank := rnd (k + 2) > 0.85
    let z : Entity :=
      { id := rnd (k + 3),
        type := if isTank then EntityType.ZOMBIE_TANK else EntityType.ZOMBIE_FAST,
        pos := spawnPos, vel := ⟨0, 0⟩,
        radius := if isTank then 25 else 12,
        color := if isTank then ZOMBIE_TANK_COLOR else ZOMBIE_FAST_COLOR,
        life := if isTank then 100 else 30,
        maxLife := if isTank then 100 else 30,
        angle := 0, markedForDeletion := false }
    ({ g1 with sim.entities := g1.sim.entities ++ [z] }, k + 4)
  else (g1, k)

/-- Boids separation for the zombie at index `i`: sum, over every other
zombie within contact margin, of the unit vector pointing away from it
(`other !== ent` is object identity in the source; here index
inequality, since every entity occupies exactly one slot). -/
def separationOf (ents : List Entity) (i : ℕ) (ent : Entity) : Vec2 :=
  (List.range ents.length).foldl
    (fun acc j =>
      if j = i then acc
      else
        match ents[j]? with
        | none => acc
        | some other =>
          if isZombie other.type = true ∧
              vecLen (vecSub ent.pos other.pos) < ent.radius + other.radius + 10 then
            vecAdd acc (vecNorm (vecSub ent.pos other.pos))
          else acc)
    ⟨0, 0⟩

/-- One step of the `state.entities.forEach` update: bullets fly and are
marked when out of bounds; zombies steer (pursuit plus separation), move,
and on contact damage the player, add trauma, publish the new health,
take knockback, and stop the game when the player's health reaches 0. -/
def entityStep (w h : ℝ) (g : GameState) (i : ℕ) : GameState :=
  match g.sim.entities[i]? with
  | none => g
  | some ent =>
    if ent.type = EntityType.BULLET then
      let pos1 := vecAdd ent.pos ent.vel
      let marked := if pos1.x < 0 ∨ pos1.x > w ∨ pos1.y < 0 ∨ pos1.y > h then true
                    else ent.markedForDeletion
      let ent1 := { ent with pos := pos1, markedForDeletion := marked }
      { g with sim.entities := g.sim.entities.set i ent1 }
    else if isZombie ent.type = true then
      let separation := separationOf g.sim.entities i ent
      let dirToPlayer := vecNorm (vecSub g.sim.player.pos ent.pos)
      let speed := zombieSpeed ent.type g.sim.score
      let vel1 := vecAdd (vecMult dirToPlayer (speed * 0.8)) (vecMult separation 0.5)
      let pos1 := vecAdd ent.pos vel1
      let ent1 := { ent with
                    vel := vel1,
                    pos := pos1,
                    angle := atan2 dirToPlayer.y dirToPlayer.x }
      let distPlayer := vecLen (vecSub pos1 g.sim.player.pos)
      if distPlayer < ent.radius + 15 then
        let health1 := g.sim.player.currHealth - 1
        let vel2 := vecMult dirToPlayer (-5)
        let ent2 := { ent1 with vel := vel2, pos := vecAdd pos1 vel2 }
        { g with
          sim := { g.sim with
            entities := g.sim.entities.set i ent2,
            player := { g.sim.player with currHealth := health1 },
            camera := { g.sim.camera with shake := addTrauma 10 g.sim.camera.shake },
            isRunning := if health1 ≤ 0 then false else g.sim.isRunning },
          view := { g.view with health := health1 } }
      else
        { g with sim.entities := g.sim.entities.set i ent1 }
    else g

/-- The whole `state.entities.forEach` update pass (the index range is
fixed before the first callback; the pass never changes the length). -/
def entityPass (w h : ℝ) (g : GameState) : GameState :=
  (List.range g.sim.entities.length).foldl (entityStep w h) g

/-- The effect of one bullet hit (source lines 308-327): the bullet at
index `bi` is marked, the enemy at index `j` loses 25 health and is
knocked back along the bullet's direction, sparks are emitted at the
enemy's new position, and when the enemy's health drops to 0 or below it
is marked, trauma is added, the kind-specific score reward is added and
published, and two blood bursts are emitted. -/
def applyHit (rnd : ℕ → ℝ) (bi j : ℕ) (b e : Entity) (g : GameState) (k : ℕ) :
    GameState × ℕ :=
  let ents1 := g.sim.entities.set bi { b with markedForDeletion := true }
  let e1 := { e with life := e.life - 25 }
  let e2 := { e1 with pos := vecAdd e1.pos (vecMult (vecNorm b.vel) 4) }
  let ents2 := ents1.set j e2
  let parts1 := g.sim.particles ++ createParticle rnd k e2.pos 5 e.color 3 10
  if e2.life ≤ 0 then
    let e3 := { e2 with markedForDeletion := true }
    let reward := if e.type = EntityType.ZOMBIE_TANK then 50 else 10
    ({ g with
        sim := { g.sim with
          entities := ents2.set j e3,
          particles := parts1 ++ createParticle rnd (k + 30) e2.pos 15 BLOOD_COLOR_1 5 40
                       ++ createParticle rnd (k + 120) e2.pos 10 BLOOD_COLOR_2 4 30,
          camera := { g.sim.camera with shake := addTrauma 8 g.sim.camera.shake },
          score := g.sim.score + reward },
        view := { g.view with score := g.sim.score + reward } },
     k + 180)
  else
    ({ g with sim := { g.sim with entities := ents2, particles := parts1 } }, k + 30)

/-- The inner enemy scan for one live bullet: the first live overlapping
zombie (in enumeration order) is hit, and the scan stops (`break`). -/
def scanList (rnd : ℕ → ℝ) (bi : ℕ) (b : Entity) :
    List ℕ → GameState × ℕ → GameState × ℕ
  | [], gk => gk
  | j :: rest, (g, k) =>
    match g.sim.entities[j]? with
    | none => scanList rnd bi b rest (g, k)
    | some e =>
      if isZombie e.type = true ∧ e.markedForDeletion = false ∧
          vecLen (vecSub b.pos e.pos) < e.radius + b.radius then
        applyHit rnd bi j b e g k
      else scanList rnd bi b rest (g, k)

/-- The outer bullet loop: every live bullet scans the entity list once. -/
def outerLoop (rnd : ℕ → ℝ) : List ℕ → GameState × ℕ → GameState × ℕ
  | [], gk => gk
  | bi :: rest, (g, k) =>
    match g.sim.entities[bi]? with
    | none => outerLoop rnd rest (g, k)
    | some b =>
      if b.type = EntityType.BULLET ∧ b.markedForDeletion = false then
        outerLoop rnd rest (scanList rnd bi b (List.range g.sim.entities.length) (g, k))
      else outerLoop rnd rest (g, k)

/-- The bullets-vs-zombies collision pass. -/
def bulletPass (rnd : ℕ → ℝ) (g : GameState) (k : ℕ) : GameState × ℕ :=
  outerLoop rnd (List.range g.sim.entities.length) (g, k)

/-- One particle update: drift, drag, lifetime decrement, expiry mark. -/
def particleStep (p : Entity) : Entity :=
  let pos1 := vecAdd p.pos p.vel
  let vel1 := vecMult p.vel 0.92
  let life1 := p.life - 1
  { p with
    pos := pos1,
    vel := vel1,
    life := life1,
    markedForDeletion := if life1 ≤ 0 then true else p.markedForDeletion }

/-- The particle update pass. -/
def particlePass (g : GameState) : GameState :=
  { g with sim.particles := g.sim.particles.map particleStep }

/-- The removal sweep: a stable filter dropping everything marked. -/
def cleanupPass (g : GameState) : GameState :=
  { g with sim := { g.sim with
      entities := g.sim.entities.filter (fun e => !e.markedForDeletion),
      particles := g.sim.particles.filter (fun p => !p.markedForDeletion) } }

/-- The camera-shake decay executed in the draw section of a running
frame: multiplicative decay with a snap to zero below 0.5 (the two
random draws there only produce the rendering offset, not state). -/
def shakeDecay (g : GameState) : GameState :=
  if g.sim.camera.shake > 0 then
    let sh := g.sim.camera.shake * 0.9
    { g with sim.camera.shake := if sh < 0.5 then 0 else sh }
  else g

/-- One running tick, in source order: frame count, player movement, aim,
cooldown and firing, recoil decay, spawning, entity update (movement and
player collision), bullets vs zombies, particle update, removal sweep,
camera shake decay. -/
def tick (w h : ℝ) (rnd : ℕ → ℝ) (g : GameState) : GameState :=
  let g1 := { g with sim.frameCount := g.sim.frameCount + 1 }
  let g2 := aimPlayer (playerMove w h g1)
  let gk3 := shootPass rnd g2 0
  let g4 := recoilDecay gk3.1
  let gk5 := spawnPass w h rnd g4 gk3.2
  let g6 := entityPass w h gk5.1
  let gk7 := bulletPass rnd g6 gk5.2
  let g8 := particlePass gk7.1
  let g9 := cleanupPass g8
  shakeDecay g9

/-- One `loop` invocation.  When the game is not running the only effect
is to latch the React game-over flag once the player is dead; nothing is
drawn and the simulation state is untouched.  Otherwise one tick runs
and the frame is rendered.  The boolean records whether the draw section
was reached. -/
def frame (w h : ℝ) (rnd : ℕ → ℝ) (g : GameState) : GameState × Bool :=
  if g.sim.isRunning = true then (tick w h rnd g, true)
  else
    ({ g with view.gameOver :=
        if g.sim.player.currHealth ≤ 0 then true else g.view.gameOver }, false)

/-- `n` animation frames, frame `i` drawing from the stream `rnds i`. -/
def runFrames (w h : ℝ) (rnds : ℕ → ℕ → ℝ) : ℕ → GameState → GameState
  | 0, g => g
  | n + 1, g => (frame w h (rnds n) (runFrames w h rnds n g)).1

/-- The zero vector has length 0. -/
theorem vecLen_zero_vec : vecLen ⟨0, 0⟩ = 0 := by
  rw [vecLen]
  norm_num

/-- Normalizing the zero vector yields the zero vector. -/
theorem vecNorm_zero_vec : vecNorm ⟨0, 0⟩ = ⟨0, 0⟩ := by
  rw [vecNorm, if_pos vecLen_zero_vec]

/-- `Math.atan2(0, 0)` is 0. -/
theorem atan2_zero_zero : atan2 0 0 = 0 := by
  have h0 : (⟨0, 0⟩ : ℂ) = 0 := by
    apply Complex.ext <;> simp
  rw [atan2, h0, Complex.arg_zero]

/-- The all-zero random stream used for the concrete runs (no random draw
is consumed on the paths the concrete runs take). -/
def rZero : ℕ → ℝ := fun _ => 0

/-- A mid-session game-over state used as a concrete input: the player
still has leftover velocity, cooldown, recoil and camera shake. -/
def demoStopped : GameState :=
  { sim := { player := { pos := ⟨100, 200⟩, vel := ⟨3, 0⟩, angle := 1, cooldown := 5,
                         maxHealth := 100, currHealth := 0, recoil := 2 },
             entities := [], particles := [], keys := [],
             mouse := { x := 0, y := 0, down := false },
             camera := { x := 0, y := 0, shake := 7 },
             waveTimer := 42, score := 120, isRunning := false, frameCount := 999 },
    view := { score := 120, health := 0, gameOver := true, wave := 1 } }

/-- C6 (counterexample): `restart()` does not reset every simulation
field to its session-start value.  On a game-over state with leftover
player velocity `(3, 0)` and camera trauma 7, both survive the restart,
while their session-start values are zero. -/
theorem restart_keeps_velocity_and_trauma :
    (restartGame 800 600 demoStopped).sim.player.vel ≠ (freshSim 800 600).player.vel ∧
    (restartGame 800 600 demoStopped).sim.camera.shake ≠ (freshSim 800 600).camera.shake := by
  constructor
  · show (⟨3, 0⟩ : Vec2) ≠ ⟨0, 0⟩
    intro hcon
    have hx := congrArg Vec2.x hcon
    norm_num at hx
  · show (7 : ℝ) ≠ 0
    norm_num

/-- C6 (amended): `restart()` resets the player position (to the
viewport centre, its session-start value) and health, clears entities
and particles, zeroes the score and the wave timer, raises the running
flag and resets the exposed view; it leaves the player's velocity, aim
angle, cooldown and recoil, the camera (trauma included), the input
snapshot and the frame count unchanged. -/
theorem restart_resets_listed_fields (w h : ℝ) (g : GameState) :
    (restartGame w h g).sim.player.pos = (freshSim w h).player.pos ∧
    (restartGame w h g).sim.player.currHealth = (freshSim w h).player.currHealth ∧
    (restartGame w h g).sim.entities = [] ∧
    (restartGame w h g).sim.particles = [] ∧
    (restartGame w h g).sim.score = 0 ∧
    (restartGame w h g).sim.waveTimer = 0 ∧
    (restartGame w h g).sim.isRunning = true ∧
    (restartGame w h g).view = freshView ∧
    (restartGame w h g).sim.player.vel = g.sim.player.vel ∧
    (restartGame w h g).sim.player.angle = g.sim.player.angle ∧
    (restartGame w h g).sim.player.cooldown = g.sim.player.cooldown ∧
    (restartGame w h g).sim.player.recoil = g.sim.player.recoil ∧
    (restartGame w h g).sim.camera = g.sim.camera ∧
    (restartGame w h g).sim.keys = g.sim.keys ∧
    (restartGame w h g).sim.mouse = g.sim.mouse ∧
    (restartGame w h g).sim.frameCount = g.sim.frameCount :=
  ⟨rfl, rfl, rfl, rfl, rfl, rfl, rfl, rfl, rfl, rfl, rfl, rfl, rfl, rfl, rfl, rfl⟩

/-- C10: while the running flag is false, a frame leaves the entire
simulation state unchanged (entities, particles, camera trauma, wave
timer and frame count included) and the draw section is never reached. -/
theorem gameover_frame_is_frozen (w h : ℝ) (rnd : ℕ → ℝ) (g : GameState)
    (hg : g.sim.isRunning = false) :
    (frame w h rnd g).1.sim = g.sim ∧ (frame w h rnd g).2 = false := by
  rw [frame, if_neg]
  · exact ⟨rfl, rfl⟩
  · simp [hg]

/-- Non-vacuity of C10 at a concrete game-over state. -/
theorem gameover_frame_is_frozen_witness :
    (frame 800 600 rZero demoStopped).1.sim = demoStopped.sim ∧
    (frame 800 600 rZero demoStopped).2 = false :=
  gameover_frame_is_frozen 800 600 rZero demoStopped rfl

/-- Fields `playerMove` leaves untouched. -/
theorem playerMove_effects (w h : ℝ) (g : GameState) :
    (playerMove w h g).sim.player.currHealth = g.sim.player.currHealth ∧
    (playerMove w h g).sim.player.maxHealth = g.sim.player.maxHealth ∧
    (playerMove w h g).sim.isRunning = g.sim.isRunning ∧
    (playerMove w h g).sim.score = g.sim.score ∧
    (playerMove w h g).sim.entities = g.sim.entities :=
  ⟨rfl, rfl, rfl, rfl, rfl⟩

/-- Fields `aimPlayer` leaves untouched. -/
theorem aimPlayer_effects (g : GameState) :
    (aimPlayer g).sim.player.currHealth = g.sim.player.currHealth ∧
    (aimPlayer g).sim.player.maxHealth = g.sim.player.maxHealth ∧
    (aimPlayer g).sim.isRunning = g.sim.isRunning ∧
    (aimPlayer g).sim.score = g.sim.score ∧
    (aimPlayer g).sim.entities = g.sim.entities :=
  ⟨rfl, rfl, rfl, rfl, rfl⟩

/-- Fields `recoilDecay` leaves untouched. -/
theorem recoilDecay_effects (g : GameState) :
    (recoilDecay g).sim.player.currHealth = g.sim.player.currHealth ∧
    (recoilDecay g).sim.player.maxHealth = g.sim.player.maxHealth ∧
    (recoilDecay g).sim.isRunning = g.sim.isRunning ∧
    (recoilDecay g).sim.score = g.sim.score ∧
    (recoilDecay g).sim.entities = g.sim.entities := by
  rw [recoilDecay]
  split
  · exact ⟨rfl, rfl, rfl, rfl, rfl⟩
  · exact ⟨rfl, rfl, rfl, rfl, rfl⟩

/-- `shootPass` does not touch health, the running flag or the score, and
adds at most one entity. -/
theorem shootPass_effects (rnd : ℕ → ℝ) (g : GameState) (k : ℕ) :
    (shootPass rnd g k).1.sim.player.currHealth = g.sim.player.currHealth ∧
    (shootPass rnd g k).1.sim.player.maxHealth = g.sim.player.maxHealth ∧
    (shootPass rnd g k).1.sim.isRunning = g.sim.isRunning ∧
    (shootPass rnd g k).1.sim.score = g.sim.score ∧
    (shootPass rnd g k).1.sim.entities.length ≤ g.sim.entities.length + 1 := by
  rw [shootPass]
  split <;> split <;> refine ⟨rfl, rfl, rfl, rfl, ?_⟩ <;> simp

/-- `spawnPass` does not touch health, the running flag or the score, and
adds at most one entity. -/
theorem spawnPass_effects (w h : ℝ) (rnd : ℕ → ℝ) (g : GameState) (k : ℕ) :
    (spawnPass w h rnd g k).1.sim.player.currHealth = g.sim.player.currHealth ∧
    (spawnPass w h rnd g k).1.sim.player.maxHealth = g.sim.player.maxHealth ∧
    (spawnPass w h rnd g k).1.sim.isRunning = g.sim.isRunning ∧
    (spawnPass w h rnd g k).1.sim.score = g.sim.score ∧
    (spawnPass w h rnd g k).1.sim.entities.length ≤ g.sim.entities.length + 1 := by
  rw [spawnPass]
  split
  · refine ⟨rfl, rfl, rfl, rfl, ?_⟩
    show (g.sim.entities ++ [_]).length ≤ g.sim.entities.length + 1
    simp
  · exact ⟨rfl, rfl, rfl, rfl, Nat.le_add_right _ 1⟩

/-- One entity-update step never raises the player's health, drops it by
at most 1, never touches `maxHealth` or the score, and preserves the
death invariant (dead implies stopped). -/
theorem entityStep_effects (w h : ℝ) (g : GameState) (i : ℕ) :
    (entityStep w h g i).sim.score = g.sim.score ∧
    (entityStep w h g i).sim.player.currHealth ≤ g.sim.player.currHealth ∧
    g.sim.player.currHealth - 1 ≤ (entityStep w h g i).sim.player.currHealth ∧
    (entityStep w h g i).sim.player.maxHealth = g.sim.player.maxHealth ∧
    ((g.sim.player.currHealth ≤ 0 → g.sim.isRunning = false) →
      (entityStep w h g i).sim.player.currHealth ≤ 0 →
      (entityStep w h g i).sim.isRunning = false) := by
  rw [entityStep]
  cases hx : g.sim.entities[i]? with
  | none => exact ⟨rfl, le_rfl, by norm_num, rfl, fun hinv => hinv⟩
  | some ent =>
    dsimp only
    split
    · exact ⟨rfl, le_rfl, by norm_num, rfl, fun hinv => hinv⟩
    · split
      · split
        · refine ⟨rfl, ?_, ?_, rfl, ?_⟩
          · show g.sim.player.currHealth - 1 ≤ g.sim.player.currHealth
            norm_num
          · exact le_rfl
          · intro _ hle
            show (if g.sim.player.currHealth - 1 ≤ 0 then false else g.sim.isRunning) = false
            rw [if_pos hle]
        · exact ⟨rfl, le_rfl, by norm_num, rfl, fun hinv => hinv⟩
      · exact ⟨rfl, le_rfl, by norm_num, rfl, fun hinv => hinv⟩

/-- Folding entity steps keeps the score and `maxHealth`, never raises
the health, drops it by at most the number of steps, and preserves the
death invariant. -/
theorem foldl_entityStep_effects (w h : ℝ) (l : List ℕ) (g : GameState) :
    (l.foldl (entityStep w h) g).sim.score = g.sim.score ∧
    (l.foldl (entityStep w h) g).sim.player.currHealth ≤ g.sim.player.currHealth ∧
    g.sim.player.currHealth - l.length ≤ (l.foldl (entityStep w h) g).sim.player.currHealth ∧
    (l.foldl (entityStep w h) g).sim.player.maxHealth = g.sim.player.maxHealth ∧
    ((g.sim.player.currHealth ≤ 0 → g.sim.isRunning = false) →
      (l.foldl (entityStep w h) g).sim.player.currHealth ≤ 0 →
      (l.foldl (entityStep w h) g).sim.isRunning = false) := by
  induction l generalizing g with
  | nil =>
    refine ⟨rfl, le_rfl, ?_, rfl, fun hinv => hinv⟩
    norm_num
  | cons i rest ih =>
    rw [List.foldl_cons]
    obtain ⟨hsc, hle, hge, hmax, hinv⟩ := entityStep_effects w h g i
    obtain ⟨ihc, ihle, ihge, ihmax, ihinv⟩ := ih (entityStep w h g i)
    refine ⟨by rw [ihc, hsc], le_trans ihle hle, ?_, by rw [ihmax, hmax], fun h0 => ihinv (hinv h0)⟩
    have hlen : ((i :: rest).length : ℝ) = rest.length + 1 := by
      push_cast [List.length_cons]
      ring
    rw [hlen]
    linarith

/-- The entity pass keeps the score and `maxHealth`, never raises the
health, drops it by at most the entity count, and preserves the death
invariant. -/
theorem entityPass_effects (w h : ℝ) (g : GameState) :
    (entityPass w h g).sim.score = g.sim.score ∧
    (entityPass w h g).sim.player.currHealth ≤ g.sim.player.currHealth ∧
    g.sim.player.currHealth - g.sim.entities.length ≤ (entityPass w h g).sim.player.currHealth ∧
    (entityPass w h g).sim.player.maxHealth = g.sim.player.maxHealth ∧
    ((g.sim.player.currHealth ≤ 0 → g.sim.isRunning = false) →
      (entityPass w h g).sim.player.currHealth ≤ 0 →
      (entityPass w h g).sim.isRunning = false) := by
  have h := foldl_entityStep_effects w h (List.range g.sim.entities.length) g
  rw [List.length_range] at h
  exact h

/-- `applyHit` leaves the whole player record and the running flag alone
and only ever adds to the score. -/
theorem applyHit_effects (rnd : ℕ → ℝ) (bi j : ℕ) (b e : Entity) (g : GameState) (k : ℕ) :
    (applyHit rnd bi j b e g k).1.sim.player = g.sim.player ∧
    (applyHit rnd bi j b e g k).1.sim.isRunning = g.sim.isRunning ∧
    g.sim.score ≤ (applyHit rnd bi j b e g k).1.sim.score := by
  rw [applyHit]
  split
  · exact ⟨rfl, rfl, Nat.le_add_right _ _⟩
  · exact ⟨rfl, rfl, le_rfl⟩

/-- The inner bullet scan leaves the player record and the running flag
alone and only ever adds to the score. -/
theorem scanList_effects (rnd : ℕ → ℝ) (bi : ℕ) (b : Entity) (js : List ℕ)
    (gk : GameState × ℕ) :
    (scanList rnd bi b js gk).1.sim.player = gk.1.sim.player ∧
    (scanList rnd bi b js gk).1.sim.isRunning = gk.1.sim.isRunning ∧
    gk.1.sim.score ≤ (scanList rnd bi b js gk).1.sim.score := by
  induction js generalizing gk with
  | nil => exact ⟨rfl, rfl, le_rfl⟩
  | cons j rest ih =>
    obtain ⟨g, k⟩ := gk
    rw [scanList]
    cases hx : g.sim.entities[j]? with
    | none =>
      dsimp only
      exact ih (g, k)
    | some e =>
      dsimp only
      split
      · exact applyHit_effects rnd bi j b e g k
      · exact ih (g, k)

/-- The outer bullet loop leaves the player record and the running flag
alone and only ever adds to the score. -/
theorem outerLoop_effects (rnd : ℕ → ℝ) (bis : List ℕ) (gk : GameState × ℕ) :
    (outerLoop rnd bis gk).1.sim.player = gk.1.sim.player ∧
    (outerLoop rnd bis gk).1.sim.isRunning = gk.1.sim.isRunning ∧
    gk.1.sim.score ≤ (outerLoop rnd bis gk).1.sim.score := by
  induction bis generalizing gk with
  | nil => exact ⟨rfl, rfl, le_rfl⟩
  | cons bi rest ih =>
    obtain ⟨g, k⟩ := gk
    rw [outerLoop]
    cases hx : g.sim.entities[bi]? with
    | none =>
      dsimp only
      exact ih (g, k)
    | some b =>
      dsimp only
      split
      · obtain ⟨h1, h2, h3⟩ :=
          scanList_effects rnd bi b (List.range g.sim.entities.length) (g, k)
        obtain ⟨i1, i2, i3⟩ := ih (scanList rnd bi b (List.range g.sim.entities.length) (g, k))
        exact ⟨by rw [i1, h1], by rw [i2, h2], le_trans h3 i3⟩
      · exact ih (g, k)

/-- The bullet pass leaves the player record and the running flag alone
and only ever adds to the score. -/
theorem bulletPass_effects (rnd : ℕ → ℝ) (g : GameState) (k : ℕ) :
    (bulletPass rnd g k).1.sim.player = g.sim.player ∧
    (bulletPass rnd g k).1.sim.isRunning = g.sim.isRunning ∧
    g.sim.score ≤ (bulletPass rnd g k).1.sim.score :=
  outerLoop_effects rnd (List.range g.sim.entities.length) (g, k)

/-- Fields the particle pass leaves untouched. -/
theorem particlePass_effects (g : GameState) :
    (particlePass g).sim.player = g.sim.player ∧
    (particlePass g).sim.isRunning = g.sim.isRunning ∧
    (particlePass g).sim.score = g.sim.score :=
  ⟨rfl, rfl, rfl⟩

/-- Fields the removal sweep leaves untouched. -/
theorem cleanupPass_effects (g : GameState) :
    (cleanupPass g).sim.player = g.sim.player ∧
    (cleanupPass g).sim.isRunning = g.sim.isRunning ∧
    (cleanupPass g).sim.score = g.sim.score :=
  ⟨rfl, rfl, rfl⟩

/-- Fields the shake decay leaves untouched. -/
theorem shakeDecay_effects (g : GameState) :
    (shakeDecay g).sim.player = g.sim.player ∧
    (shakeDecay g).sim.isRunning = g.sim.isRunning ∧
    (shakeDecay g).sim.score = g.sim.score := by
  rw [shakeDecay]
  split
  · exact ⟨rfl, rfl, rfl⟩
  · exact ⟨rfl, rfl, rfl⟩

/-- Aggregate effect of one tick: the score never drops, the player's
health never rises, the health drops by at most `entities.length + 2`
(each enemy in contact costs 1, and at most one bullet and one enemy are
pushed before the entity pass), `maxHealth` is untouched, and if a
previously alive player ends the tick with health at or below 0 the
running flag ends the tick false. -/
theorem tick_effects (w h : ℝ) (rnd : ℕ → ℝ) (g : GameState) :
    g.sim.score ≤ (tick w h rnd g).sim.score ∧
    (tick w h rnd g).sim.player.currHealth ≤ g.sim.player.currHealth ∧
    g.sim.player.currHealth - (g.sim.entities.length + 2) ≤
      (tick w h rnd g).sim.player.currHealth ∧
    (tick w h rnd g).sim.player.maxHealth = g.sim.player.maxHealth ∧
    (0 < g.sim.player.currHealth →
      (tick w h rnd g).sim.player.currHealth ≤ 0 →
      (tick w h rnd g).sim.isRunning = false) := by
  have e : tick w h rnd g =
      shakeDecay (cleanupPass (particlePass (bulletPass rnd
        (entityPass w h (spawnPass w h rnd (recoilDecay
          (shootPass rnd (aimPlayer (playerMove w h
            { g with sim.frameCount := g.sim.frameCount + 1 })) 0).1)
          (shootPass rnd (aimPlayer (playerMove w h
            { g with sim.frameCount := g.sim.frameCount + 1 })) 0).2).1)
        (spawnPass w h rnd (recoilDecay
          (shootPass rnd (aimPlayer (playerMove w h
            { g with sim.frameCount := g.sim.frameCount + 1 })) 0).1)
          (shootPass rnd (aimPlayer (playerMove w h
            { g with sim.frameCount := g.sim.frameCount + 1 })) 0).2).2).1)) := rfl
  rw [e]
  set g1 : GameState := { g with sim.frameCount := g.sim.frameCount + 1 } with hg1def
  set g2 : GameState := aimPlayer (playerMove w h g1) with hg2def
  set gk3 : GameState × ℕ := shootPass rnd g2 0 with hgk3def
  set g4 : GameState := recoilDecay gk3.1 with hg4def
  set gk5 : GameState × ℕ := spawnPass w h rnd g4 gk3.2 with hgk5def
  set g6 : GameState := entityPass w h gk5.1 with hg6def
  set gk7 : GameState × ℕ := bulletPass rnd g6 gk5.2 with hgk7def
  set g8 : GameState := particlePass gk7.1 with hg8def
  set g9 : GameState := cleanupPass g8 with hg9def
  have m1 := playerMove_effects w h g1
  have m2 := aimPlayer_effects (playerMove w h g1)
  rw [← hg2def] at m2
  have m3 := shootPass_effects rnd g2 0
  rw [← hgk3def] at m3
  have m4 := recoilDecay_effects gk3.1
  rw [← hg4def] at m4
  have m5 := spawnPass_effects w h rnd g4 gk3.2
  rw [← hgk5def] at m5
  have m6 := entityPass_effects w h gk5.1
  rw [← hg6def] at m6
  have m7 := bulletPass_effects rnd g6 gk5.2
  rw [← hgk7def] at m7
  have m8 := particlePass_effects gk7.1
  rw [← hg8def] at m8
  have m9 := cleanupPass_effects g8
  rw [← hg9def] at m9
  have m10 := shakeDecay_effects g9
  obtain ⟨a1, a2, a3, a4, a5⟩ := m1
  obtain ⟨b1, b2, b3, b4, b5⟩ := m2
  obtain ⟨c1, c2, c3, c4, c5⟩ := m3
  obtain ⟨d1, d2, d3, d4, d5⟩ := m4
  obtain ⟨f1, f2, f3, f4, f5⟩ := m5
  obtain ⟨n1, n2, n3, n4, n5⟩ := m6
  obtain ⟨p1, p2, p3⟩ := m7
  obtain ⟨q1, q2, q3⟩ := m8
  obtain ⟨r1, r2, r3⟩ := m9
  obtain ⟨s1, s2, s3⟩ := m10
  -- the player record (hence health) is unchanged from g6 on
  have hp8 : g8.sim.player = g6.sim.player := by rw [q1, p1]
  have hp9 : g9.sim.player = g6.sim.player := by rw [r1, hp8]
  have hp10 : (shakeDecay g9).sim.player = g6.sim.player := by rw [s1, hp9]
  have hh10 : (shakeDecay g9).sim.player.currHealth = g6.sim.player.currHealth := by
    rw [hp10]
  have hmax10 : (shakeDecay g9).sim.player.maxHealth = g6.sim.player.maxHealth := by
    rw [hp10]
  have hr10 : (shakeDecay g9).sim.isRunning = g6.sim.isRunning := by
    rw [s2, r2, q2, p2]
  have hone : g1.sim.player = g.sim.player ∧ g1.sim.entities = g.sim.entities ∧
      g1.sim.score = g.sim.score ∧ g1.sim.isRunning = g.sim.isRunning :=
    ⟨rfl, rfl, rfl, rfl⟩
  -- health before the entity pass equals the health at tick start
  have hpre : gk5.1.sim.player.currHealth = g.sim.player.currHealth := by
    rw [f1, d1, c1, b1, a1, hone.1]
  have hpremax : gk5.1.sim.player.maxHealth = g.sim.player.maxHealth := by
    rw [f2, d2, c2, b2, a2, hone.1]
  -- entity count before the entity pass
  have hlen : gk5.1.sim.entities.length ≤ g.sim.entities.length + 2 := by
    have l2 := c5
    rw [b5, a5, hone.2.1] at l2
    have l3 : g4.sim.entities.length = gk3.1.sim.entities.length := by rw [d5]
    have l4 := f5
    omega
  -- score before the entity pass equals the score at tick start
  have hsc : gk5.1.sim.score = g.sim.score := by
    rw [f4, d4, c4, b4, a4, hone.2.2.1]
  have hsc10 : (shakeDecay g9).sim.score = gk7.1.sim.score := by
    rw [s3, r3, q3]
  refine ⟨?_, ?_, ?_, ?_, ?_⟩
  · rw [hsc10]
    calc g.sim.score = gk5.1.sim.score := hsc.symm
      _ = g6.sim.score := n1.symm
      _ ≤ gk7.1.sim.score := p3
  · rw [hh10]
    calc g6.sim.player.currHealth ≤ gk5.1.sim.player.currHealth := n2
      _ = g.sim.player.currHealth := hpre
  · rw [hh10]
    have hb := n3
    rw [hpre] at hb
    have hcast : (gk5.1.sim.entities.length : ℝ) ≤ (g.sim.entities.length : ℝ) + 2 := by
      exact_mod_cast hlen
    linarith
  · rw [hmax10, n4, hpremax]
  · intro hpos hdead
    rw [hh10] at hdead
    rw [hr10]
    refine n5 ?_ hdead
    intro hc
    rw [hpre] at hc
    exact absurd hpos (not_lt.mpr hc)

/-- C9: within one session (no restart) the score is monotonically
non-decreasing: a tick only ever adds to it, and across any sequence of
frames a later score is at least an earlier one. -/
theorem score_monotone_in_session :
    (∀ (w h : ℝ) (rnd : ℕ → ℝ) (g : GameState),
      g.sim.score ≤ (tick w h rnd g).sim.score) ∧
    (∀ (w h : ℝ) (rnds : ℕ → ℕ → ℝ) (g : GameState) (m n : ℕ), m ≤ n →
      (runFrames w h rnds m g).sim.score ≤ (runFrames w h rnds n g).sim.score) := by
  have htick : ∀ (w h : ℝ) (rnd : ℕ → ℝ) (g : GameState),
      g.sim.score ≤ (tick w h rnd g).sim.score := fun w h rnd g => (tick_effects w h rnd g).1
  have hframe : ∀ (w h : ℝ) (rnd : ℕ → ℝ) (g : GameState),
      g.sim.score ≤ (frame w h rnd g).1.sim.score := by
    intro w h rnd g
    rw [frame]
    split
    · exact htick w h rnd g
    · exact le_rfl
  refine ⟨htick, fun w h rnds g m n hmn => ?_⟩
  induction n, hmn using Nat.le_induction with
  | base => exact le_rfl
  | succ n hmn ih =>
    calc (runFrames w h rnds m g).sim.score
        ≤ (runFrames w h rnds n g).sim.score := ih
      _ ≤ (runFrames w h rnds (n + 1) g).sim.score := by
          rw [runFrames]
          exact hframe w h (rnds n) (runFrames w h rnds n g)

/-- Non-vacuity of C9 on a concrete two-frame run. -/
theorem score_monotone_in_session_witness :
    (runFrames 800 600 (fun _ => rZero) 0 demoStopped).sim.score ≤
    (runFrames 800 600 (fun _ => rZero) 2 demoStopped).sim.score :=
  score_monotone_in_session.2 800 600 (fun _ => rZero) demoStopped 0 2 (by norm_num)

/-- C1 (amended): during a tick the player's health never increases (so
`currHealth ≤ maxHealth` is preserved, and `maxHealth` itself never
changes), and it drops by at most one per enemy in contact — at most
`entities.length + 2` in all.  The lower bound 0 of the original claim
does not hold: with two or more enemies in contact on the death tick the
health (and the published health) can end negative. -/
theorem health_never_rises_bounded_drop (w h : ℝ) (rnd : ℕ → ℝ) (g : GameState) :
    (tick w h rnd g).sim.player.currHealth ≤ g.sim.player.currHealth ∧
    g.sim.player.currHealth - (g.sim.entities.length + 2) ≤
      (tick w h rnd g).sim.player.currHealth ∧
    (tick w h rnd g).sim.player.maxHealth = g.sim.player.maxHealth ∧
    (g.sim.player.currHealth ≤ g.sim.player.maxHealth →
      (tick w h rnd g).sim.player.currHealth ≤ (tick w h rnd g).sim.player.maxHealth) := by
  obtain ⟨-, h2, h3, h4, -⟩ := tick_effects w h rnd g
  refine ⟨h2, h3, h4, fun hle => ?_⟩
  rw [h4]
  exact le_trans h2 hle

/-- C2: a player alive at the start of a tick whose health is 0 or below
at its end leaves the running flag false at the end of that same tick;
while the flag is false no frame changes the simulation state; and
`restartGame` raises the flag again. -/
theorem death_stops_simulation (w h : ℝ) (rnd : ℕ → ℝ) (g : GameState)
    (hpos : 0 < g.sim.player.currHealth) :
    ((tick w h rnd g).sim.player.currHealth ≤ 0 →
      (tick w h rnd g).sim.isRunning = false) ∧
    (∀ g2 : GameState, g2.sim.isRunning = false → (frame w h rnd g2).1.sim = g2.sim) ∧
    (∀ g2 : GameState, (restartGame w h g2).sim.isRunning = true) := by
  refine ⟨(tick_effects w h rnd g).2.2.2.2 hpos, fun g2 hg2 => ?_, fun g2 => rfl⟩
  rw [frame, if_neg]
  simp [hg2]

/-- `ZOMBIE_FAST` is not the bullet kind (a rewrite used when evaluating
the embedded passes on concrete states). -/
theorem fast_ne_bullet : (EntityType.ZOMBIE_FAST = EntityType.BULLET) = False := by simp

/-- `ZOMBIE_TANK` is not the bullet kind. -/
theorem tank_ne_bullet : (EntityType.ZOMBIE_TANK = EntityType.BULLET) = False := by simp

/-- A fast zombie standing exactly on the player, used by the concrete
death-tick run. -/
def zf0 : Entity :=
  { id := 0, type := EntityType.ZOMBIE_FAST, pos := ⟨400, 300⟩, vel := ⟨0, 0⟩,
    radius := 12, color := ZOMBIE_FAST_COLOR, life := 30, maxLife := 30,
    angle := 0, markedForDeletion := false }

/-- Death-tick input: the player at `(400, 300)` with health 1, two fast
zombies in contact (standing on the player), no key held, pointer up. -/
def demoC1 : GameState :=
  { sim := { player := { pos := ⟨400, 300⟩, vel := ⟨0, 0⟩, angle := 0, cooldown := 0,
                         maxHealth := 100, currHealth := 1, recoil := 0 },
             entities := [zf0, zf0], particles := [], keys := [],
             mouse := { x := 400, y := 300, down := false },
             camera := { x := 0, y := 0, shake := 0 },
             waveTimer := 0, score := 0, isRunning := true, frameCount := 0 },
    view := { score := 0, health := 1, gameOver := false, wave := 1 } }

/-- `demoC1` after the frame-count increment. -/
def demoC1a : GameState :=
  { sim := { player := { pos := ⟨400, 300⟩, vel := ⟨0, 0⟩, angle := 0, cooldown := 0,
                         maxHealth := 100, currHealth := 1, recoil := 0 },
             entities := [zf0, zf0], particles := [], keys := [],
             mouse := { x := 400, y := 300, down := false },
             camera := { x := 0, y := 0, shake := 0 },
             waveTimer := 0, score := 0, isRunning := true, frameCount := 1 },
    view := { score := 0, health := 1, gameOver := false, wave := 1 } }

/-- `demoC1a` after the (spawn-free) wave-timer increment. -/
def demoC1b : GameState :=
  { sim := { player := { pos := ⟨400, 300⟩, vel := ⟨0, 0⟩, angle := 0, cooldown := 0,
                         maxHealth := 100, currHealth := 1, recoil := 0 },
             entities := [zf0, zf0], particles := [], keys := [],
             mouse := { x := 400, y := 300, down := false },
             camera := { x := 0, y := 0, shake := 0 },
             waveTimer := 1, score := 0, isRunning := true, frameCount := 1 },
    view := { score := 0, health := 1, gameOver := false, wave := 1 } }

/-- The state after the entity pass of the death tick: both zombies hit
the player, the health is -1, the game stopped, the trauma is 20. -/
def demoC1c : GameState :=
  { sim := { player := { pos := ⟨400, 300⟩, vel := ⟨0, 0⟩, angle := 0, cooldown := 0,
                         maxHealth := 100, currHealth := -1, recoil := 0 },
             entities := [zf0, zf0], particles := [], keys := [],
             mouse := { x := 400, y := 300, down := false },
             camera := { x := 0, y := 0, shake := 20 },
             waveTimer := 1, score := 0, isRunning := false, frameCount := 1 },
    view := { score := 0, health := -1, gameOver := false, wave := 1 } }

/-- The end state of the death tick (after shake decay). -/
def demoC1d : GameState :=
  { sim := { player := { pos := ⟨400, 300⟩, vel := ⟨0, 0⟩, angle := 0, cooldown := 0,
                         maxHealth := 100, currHealth := -1, recoil := 0 },
             entities := [zf0, zf0], particles := [], keys := [],
             mouse := { x := 400, y := 300, down := false },
             camera := { x := 0, y := 0, shake := 18 },
             waveTimer := 1, score := 0, isRunning := false, frameCount := 1 },
    view := { score := 0, health := -1, gameOver := false, wave := 1 } }

theorem demoC1_stage1 : aimPlayer (playerMove 800 600 demoC1a) = demoC1a := by
  norm_num [aimPlayer, playerMove, demoC1a, moveInput, vecNorm_zero_vec, vecAdd,
    vecMult, vecSub, FRICTION, min_def, max_def, atan2_zero_zero, zf0]

theorem demoC1_stage2 : shootPass rZero demoC1a 0 = (demoC1a, 0) := by
  norm_num [shootPass, demoC1a, zf0]

theorem demoC1_stage3 : recoilDecay demoC1a = demoC1a := by
  norm_num [recoilDecay, demoC1a, zf0]

theorem demoC1_stage4 : spawnPass 800 600 rZero demoC1a 0 = (demoC1b, 0) := by
  norm_num [spawnPass, spawnRate, demoC1a, demoC1b, zf0]

theorem demoC1_stage5 : entityPass 800 600 demoC1b = demoC1c := by
  norm_num [entityPass, entityStep, separationOf, demoC1b, demoC1c, zf0,
    List.range_succ, vecAdd, vecSub, vecMult, vecNorm_zero_vec, vecLen_zero_vec,
    atan2_zero_zero, addTrauma, zombieSpeed, isZombie, min_def, fast_ne_bullet]

theorem demoC1_stage6 : bulletPass rZero demoC1c 0 = (demoC1c, 0) := by
  norm_num [bulletPass, outerLoop, demoC1c, zf0, List.range_succ, fast_ne_bullet]

theorem demoC1_stage7 : particlePass demoC1c = demoC1c := by
  norm_num [particlePass, demoC1c]

theorem demoC1_stage8 : cleanupPass demoC1c = demoC1c := by
  norm_num [cleanupPass, demoC1c, zf0]

theorem demoC1_stage9 : shakeDecay demoC1c = demoC1d := by
  norm_num [shakeDecay, demoC1c, demoC1d]

/-- Concrete death-tick run: from `demoC1` one tick ends at `demoC1d`. -/
theorem demoC1_tick_run : tick 800 600 rZero demoC1 = demoC1d := by
  have h0 : ({ demoC1 with sim.frameCount := demoC1.sim.frameCount + 1 } : GameState)
      = demoC1a := by
    norm_num [demoC1, demoC1a]
  simp only [tick, h0, demoC1_stage1, demoC1_stage2, demoC1_stage3, demoC1_stage4,
    demoC1_stage5, demoC1_stage6, demoC1_stage7, demoC1_stage8, demoC1_stage9]

/-- C1 (counterexample): with two enemies in contact and health 1, the
death tick drives both the internal and the published health to -1; the
health is therefore not bounded below by 0 when several enemies touch the
player during one tick. -/
theorem health_goes_negative_with_two_contacts :
    (tick 800 600 rZero demoC1).sim.player.currHealth < 0 ∧
    (tick 800 600 rZero demoC1).view.health < 0 := by
  rw [demoC1_tick_run]
  norm_num [demoC1d]

/-- Non-vacuity of C2 on the concrete death tick. -/
theorem death_stops_simulation_witness :
    (tick 800 600 rZero demoC1).sim.isRunning = false :=
  (death_stops_simulation 800 600 rZero demoC1 (by norm_num [demoC1])).1
    (by rw [demoC1_tick_run]; norm_num [demoC1d])

/-- The hit condition of the inner bullet scan at slot `j`: a live
(unmarked) zombie overlapping the bullet sits there. -/
def hitCond (ents : List Entity) (b : Entity) (j : ℕ) : Prop :=
  ∃ e, ents[j]? = some e ∧ isZombie e.type = true ∧ e.markedForDeletion = false ∧
    vecLen (vecSub b.pos e.pos) < e.radius + b.radius

/-- `applyHit` leaves every slot other than the bullet's and the hit
enemy's exactly as it was. -/
theorem applyHit_other_slot (rnd : ℕ → ℝ) (bi J : ℕ) (b e : Entity) (g : GameState)
    (k : ℕ) (j : ℕ) (hJ : J ≠ j) (hbi : bi ≠ j) :
    (applyHit rnd bi J b e g k).1.sim.entities[j]? = g.sim.entities[j]? := by
  simp only [applyHit]
  split
  · show (((g.sim.entities.set bi _).set J _).set J _)[j]? = _
    rw [List.getElem?_set_ne hJ, List.getElem?_set_ne hJ, List.getElem?_set_ne hbi]
  · show ((g.sim.entities.set bi _).set J _)[j]? = _
    rw [List.getElem?_set_ne hJ, List.getElem?_set_ne hbi]

/-- After a lethal hit the enemy slot holds the damaged, knocked-back and
marked enemy. -/
theorem applyHit_dead_slot (rnd : ℕ → ℝ) (bi J : ℕ) (b e : Entity) (g : GameState)
    (k : ℕ) (hJ : J < g.sim.entities.length) (hdead : e.life - 25 ≤ 0) :
    (applyHit rnd bi J b e g k).1.sim.entities[J]? =
      some { e with life := e.life - 25,
                    pos := vecAdd e.pos (vecMult (vecNorm b.vel) 4),
                    markedForDeletion := true } := by
  simp only [applyHit]
  rw [if_pos hdead]
  show (((g.sim.entities.set bi _).set J _).set J _)[J]? = _
  rw [List.getElem?_set_eq_of_lt]
  simp only [List.length_set]
  exact hJ

/-- After a lethal hit the score has grown by exactly the kind reward
and has been published to the view. -/
theorem applyHit_dead_score (rnd : ℕ → ℝ) (bi J : ℕ) (b e : Entity) (g : GameState)
    (k : ℕ) (hdead : e.life - 25 ≤ 0) :
    (applyHit rnd bi J b e g k).1.sim.score =
      g.sim.score + (if e.type = EntityType.ZOMBIE_TANK then 50 else 10) ∧
    (applyHit rnd bi J b e g k).1.view.score = (applyHit rnd bi J b e g k).1.sim.score := by
  simp only [applyHit]
  rw [if_pos hdead]
  exact ⟨rfl, rfl⟩

/-- After a lethal hit the particle list has grown by exactly the hit
sparks and the two blood bursts, all at the enemy's knocked-back
position. -/
theorem applyHit_dead_particles (rnd : ℕ → ℝ) (bi J : ℕ) (b e : Entity) (g : GameState)
    (k : ℕ) (hdead : e.life - 25 ≤ 0) :
    (applyHit rnd bi J b e g k).1.sim.particles =
      g.sim.particles
        ++ createParticle rnd k (vecAdd e.pos (vecMult (vecNorm b.vel) 4)) 5 e.color 3 10
        ++ createParticle rnd (k + 30) (vecAdd e.pos (vecMult (vecNorm b.vel) 4)) 15
            BLOOD_COLOR_1 5 40
        ++ createParticle rnd (k + 120) (vecAdd e.pos (vecMult (vecNorm b.vel) 4)) 10
            BLOOD_COLOR_2 4 30 := by
  simp only [applyHit]
  rw [if_pos hdead]

/-- Every burst has exactly `count` particles, all with the burst's color
and at the burst's position. -/
theorem createParticle_count_color_pos (rnd : ℕ → ℝ) (k : ℕ) (pos : Vec2) (count : ℕ)
    (color : String) (speed lifeBase : ℝ) :
    (createParticle rnd k pos count color speed lifeBase).length = count ∧
    ∀ p ∈ createParticle rnd k pos count color speed lifeBase,
      p.color = color ∧ p.pos = pos := by
  constructor
  · simp [createParticle]
  · intro p hp
    rw [createParticle] at hp
    obtain ⟨i, -, rfl⟩ := List.mem_map.mp hp
    exact ⟨rfl, rfl⟩

/-- After any hit the bullet's slot holds the marked bullet. -/
theorem applyHit_bullet_slot (rnd : ℕ → ℝ) (bi J : ℕ) (b e : Entity) (g : GameState)
    (k : ℕ) (hne : J ≠ bi) (hlt : bi < g.sim.entities.length) :
    (applyHit rnd bi J b e g k).1.sim.entities[bi]? =
      some { b with markedForDeletion := true } := by
  simp only [applyHit]
  split
  · show (((g.sim.entities.set bi _).set J _).set J _)[bi]? = _
    rw [List.getElem?_set_ne hne, List.getElem?_set_ne hne, List.getElem?_set_eq_of_lt]
    exact hlt
  · show ((g.sim.entities.set bi _).set J _)[bi]? = _
    rw [List.getElem?_set_ne hne, List.getElem?_set_eq_of_lt]
    exact hlt

/-- A scan over slots none of which satisfies the hit condition changes
nothing. -/
theorem scanList_no_hit (rnd : ℕ → ℝ) (bi : ℕ) (b : Entity) (js : List ℕ)
    (gk : GameState × ℕ) (hno : ∀ j ∈ js, ¬ hitCond gk.1.sim.entities b j) :
    scanList rnd bi b js gk = gk := by
  obtain ⟨g, k⟩ := gk
  induction js with
  | nil => rfl
  | cons j rest ih =>
    rw [scanList]
    cases hx : g.sim.entities[j]? with
    | none =>
      dsimp only
      exact ih fun j' hj' => hno j' (List.mem_cons_of_mem _ hj')
    | some e =>
      dsimp only
      rw [if_neg]
      · exact ih fun j' hj' => hno j' (List.mem_cons_of_mem _ hj')
      · intro hcond
        exact hno j (List.mem_cons_self _ _) ⟨e, hx, hcond.1, hcond.2.1, hcond.2.2⟩

/-- A scan whose prefix has no live overlapping zombie and which then
reaches the live overlapping zombie `e` at slot `J` is exactly the single
hit at `J`; the slots after `J` are never examined. -/
theorem scanList_first_hit (rnd : ℕ → ℝ) (bi : ℕ) (b : Entity) (js1 js2 : List ℕ)
    (J : ℕ) (g : GameState) (k : ℕ) (e : Entity)
    (hno : ∀ j ∈ js1, ¬ hitCond g.sim.entities b j)
    (hJ : g.sim.entities[J]? = some e) (hz : isZombie e.type = true)
    (hum : e.markedForDeletion = false)
    (hd : vecLen (vecSub b.pos e.pos) < e.radius + b.radius) :
    scanList rnd bi b (js1 ++ J :: js2) (g, k) = applyHit rnd bi J b e g k := by
  induction js1 with
  | nil =>
    rw [List.nil_append, scanList, hJ]
    dsimp only
    rw [if_pos ⟨hz, hum, hd⟩]
  | cons j rest ih =>
    rw [List.cons_append, scanList]
    cases hx : g.sim.entities[j]? with
    | none =>
      dsimp only
      exact ih fun j' hj' => hno j' (List.mem_cons_of_mem _ hj')
    | some e2 =>
      dsimp only
      rw [if_neg]
      · exact ih fun j' hj' => hno j' (List.mem_cons_of_mem _ hj')
      · intro hcond
        exact hno j (List.mem_cons_self _ _) ⟨e2, hx, hcond.1, hcond.2.1, hcond.2.2⟩

/-- A slot holding a marked entity is never touched by the inner scan of
a live (unmarked) bullet. -/
theorem scanList_marked_slot (rnd : ℕ → ℝ) (bi : ℕ) (b : Entity) (js : List ℕ)
    (g : GameState) (k : ℕ) (j : ℕ) (m : Entity)
    (hm : g.sim.entities[j]? = some m) (hmark : m.markedForDeletion = true)
    (hb : g.sim.entities[bi]? = some b) (hbm : b.markedForDeletion = false) :
    (scanList rnd bi b js (g, k)).1.sim.entities[j]? = some m := by
  induction js with
  | nil => exact hm
  | cons j' rest ih =>
    rw [scanList]
    cases hx : g.sim.entities[j']? with
    | none =>
      dsimp only
      exact ih
    | some e =>
      dsimp only
      split
      · rename_i hcond
        obtain ⟨hz, hmk, hd⟩ := hcond
        have hjj : j' ≠ j := by
          intro hEq
          rw [hEq, hm] at hx
          injection hx with hx'
          rw [hx', hmk] at hmark
          cases hmark
        have hbij : bi ≠ j := by
          intro hEq
          rw [hEq, hm] at hb
          injection hb with hb'
          rw [hb', hbm] at hmark
          cases hmark
        rw [applyHit_other_slot rnd bi j' b e g k j hjj hbij]
        exact hm
      · exact ih

/-- A slot holding a marked entity survives the whole bullet pass
untouched: once an enemy is marked (for instance because it just died),
no later bullet of the same tick damages it or scores it again. -/
theorem outerLoop_marked_slot (rnd : ℕ → ℝ) (bis : List ℕ) (gk : GameState × ℕ)
    (j : ℕ) (m : Entity) (hm : gk.1.sim.entities[j]? = some m)
    (hmark : m.markedForDeletion = true) :
    (outerLoop rnd bis gk).1.sim.entities[j]? = some m := by
  induction bis generalizing gk with
  | nil => exact hm
  | cons bi rest ih =>
    obtain ⟨g, k⟩ := gk
    rw [outerLoop]
    cases hx : g.sim.entities[bi]? with
    | none =>
      dsimp only
      exact ih (g, k) hm
    | some b =>
      dsimp only
      split
      · rename_i hbcond
        exact ih _ (scanList_marked_slot rnd bi b _ g k j m hm hmark hx hbcond.2)
      · exact ih (g, k) hm

/-- C4: in the projectile-vs-enemy pass every live projectile resolves at
most one hit.  A scan over slots none of which holds a live overlapping
zombie changes nothing; and a scan over `js1 ++ J :: js2` in which no
slot of `js1` holds a live overlapping zombie while slot `J` holds the
live overlapping zombie `e` equals the single hit at `J`: the projectile
is marked for removal, the slots of `js2` are never examined, and every
entity other than the projectile and the enemy at `J` is left exactly as
it was — even if it also overlaps the projectile. -/
theorem bullet_resolves_at_most_one_hit (rnd : ℕ → ℝ) (bi : ℕ) (b : Entity) :
    (∀ (js : List ℕ) (gk : GameState × ℕ),
      (∀ j ∈ js, ¬ hitCond gk.1.sim.entities b j) → scanList rnd bi b js gk = gk) ∧
    (∀ (js1 js2 : List ℕ) (J : ℕ) (g : GameState) (k : ℕ) (e : Entity),
      (∀ j ∈ js1, ¬ hitCond g.sim.entities b j) →
      g.sim.entities[J]? = some e →
      isZombie e.type = true → e.markedForDeletion = false →
      vecLen (vecSub b.pos e.pos) < e.radius + b.radius →
      g.sim.entities[bi]? = some b → b.type = EntityType.BULLET →
      scanList rnd bi b (js1 ++ J :: js2) (g, k) = applyHit rnd bi J b e g k ∧
      (scanList rnd bi b (js1 ++ J :: js2) (g, k)).1.sim.entities[bi]? =
        some { b with markedForDeletion := true } ∧
      (∀ j, j ≠ J → j ≠ bi →
        (scanList rnd bi b (js1 ++ J :: js2) (g, k)).1.sim.entities[j]? =
          g.sim.entities[j]?)) := by
  refine ⟨fun js gk hno => scanList_no_hit rnd bi b js gk hno, ?_⟩
  intro js1 js2 J g k e hno hJ hz hum hd hb hbt
  have hmain := scanList_first_hit rnd bi b js1 js2 J g k e hno hJ hz hum hd
  have hJbi : J ≠ bi := by
    intro hEq
    rw [hEq, hb] at hJ
    injection hJ with hJ'
    rw [← hJ', hbt] at hz
    cases hz
  have hbilt : bi < g.sim.entities.length := (List.getElem?_eq_some.mp hb).1
  refine ⟨hmain, ?_, ?_⟩
  · rw [hmain]
    exact applyHit_bullet_slot rnd bi J b e g k hJbi hbilt
  · intro j hjJ hjbi
    rw [hmain]
    exact applyHit_other_slot rnd bi J b e g k j (Ne.symm hjJ) (Ne.symm hjbi)

/-- C5 (death handling, source lines 316-325): a hit that drives an
enemy's health from positive to 0 or below marks the enemy for removal,
adds exactly the kind-specific reward (50 for a tank, 10 for a fast
enemy) to the score once and publishes it, and emits — after the hit
sparks — exactly the two blood bursts at the enemy's knocked-back
position: 15 particles of color `"#00ff00"` at max speed 5 and 10
particles of color `"#ff0055"` at max speed 4 (two distinct colors,
distinct counts, distinct speeds).  A marked slot then survives the rest
of the bullet pass untouched, so the reward is added exactly once for
that enemy. -/
theorem enemy_death_reward_and_bursts (rnd : ℕ → ℝ) :
    (∀ (bi j : ℕ) (b e : Entity) (g : GameState) (k : ℕ),
      g.sim.entities[j]? = some e → e.life - 25 ≤ 0 →
      (applyHit rnd bi j b e g k).1.sim.entities[j]? =
        some { e with life := e.life - 25,
                      pos := vecAdd e.pos (vecMult (vecNorm b.vel) 4),
                      markedForDeletion := true } ∧
      (applyHit rnd bi j b e g k).1.sim.score =
        g.sim.score + (if e.type = EntityType.ZOMBIE_TANK then 50 else 10) ∧
      (applyHit rnd bi j b e g k).1.view.score = (applyHit rnd bi j b e g k).1.sim.score ∧
      (applyHit rnd bi j b e g k).1.sim.particles =
        g.sim.particles
          ++ createParticle rnd k (vecAdd e.pos (vecMult (vecNorm b.vel) 4)) 5 e.color 3 10
          ++ createParticle rnd (k + 30) (vecAdd e.pos (vecMult (vecNorm b.vel) 4)) 15
              BLOOD_COLOR_1 5 40
          ++ createParticle rnd (k + 120) (vecAdd e.pos (vecMult (vecNorm b.vel) 4)) 10
              BLOOD_COLOR_2 4 30) ∧
    (BLOOD_COLOR_1 ≠ BLOOD_COLOR_2 ∧ (15 : ℕ) ≠ 10 ∧ (5 : ℝ) ≠ 4) ∧
    (∀ (k : ℕ) (pos : Vec2) (count : ℕ) (color : String) (speed lifeBase : ℝ),
      (createParticle rnd k pos count color speed lifeBase).length = count ∧
      ∀ p ∈ createParticle rnd k pos count color speed lifeBase,
        p.color = color ∧ p.pos = pos) ∧
    (∀ (bis : List ℕ) (gk : GameState × ℕ) (j : ℕ) (m : Entity),
      gk.1.sim.entities[j]? = some m → m.markedForDeletion = true →
      (outerLoop rnd bis gk).1.sim.entities[j]? = some m) := by
  refine ⟨fun bi j b e g k hj hdead => ?_,
    ⟨by decide, by norm_num, by norm_num⟩,
    fun k pos count color speed lifeBase =>
      createParticle_count_color_pos rnd k pos count color speed lifeBase,
    fun bis gk j m hm hmark => outerLoop_marked_slot rnd bis gk j m hm hmark⟩
  have hlt : j < g.sim.entities.length := (List.getElem?_eq_some.mp hj).1
  exact ⟨applyHit_dead_slot rnd bi j b e g k hlt hdead,
    (applyHit_dead_score rnd bi j b e g k hdead).1,
    (applyHit_dead_score rnd bi j b e g k hdead).2,
    applyHit_dead_particles rnd bi j b e g k hdead⟩

/-- A live bullet used by the concrete hit scenarios. -/
def bul0 : Entity :=
  { id := 0, type := EntityType.BULLET, pos := ⟨100, 100⟩, vel := ⟨18, 0⟩,
    radius := 3, color := BULLET_COLOR, life := 1, maxLife := 1, angle := 0,
    markedForDeletion := false }

/-- A full-health fast zombie overlapping `bul0`. -/
def zf1 : Entity :=
  { id := 0, type := EntityType.ZOMBIE_FAST, pos := ⟨100, 100⟩, vel := ⟨0, 0⟩,
    radius := 12, color := ZOMBIE_FAST_COLOR, life := 30, maxLife := 30, angle := 0,
    markedForDeletion := false }

/-- A wounded fast zombie (health 20, one hit from death) overlapping `bul0`. -/
def zf2 : Entity :=
  { id := 0, type := EntityType.ZOMBIE_FAST, pos := ⟨100, 100⟩, vel := ⟨0, 0⟩,
    radius := 12, color := ZOMBIE_FAST_COLOR, life := 20, maxLife := 30, angle := 0,
    markedForDeletion := false }

/-- Concrete scenario: one bullet overlapping two healthy zombies. -/
def demoHit : GameState :=
  { sim := { player := { pos := ⟨400, 300⟩, vel := ⟨0, 0⟩, angle := 0, cooldown := 0,
                         maxHealth := 100, currHealth := 100, recoil := 0 },
             entities := [bul0, zf1, zf1], particles := [], keys := [],
             mouse := { x := 400, y := 300, down := false },
             camera := { x := 0, y := 0, shake := 0 },
             waveTimer := 0, score := 0, isRunning := true, frameCount := 0 },
    view := { score := 0, health := 100, gameOver := false, wave := 1 } }

/-- Concrete scenario: one bullet overlapping a wounded zombie (and a
healthy one behind it). -/
def demoHit2 : GameState :=
  { sim := { player := { pos := ⟨400, 300⟩, vel := ⟨0, 0⟩, angle := 0, cooldown := 0,
                         maxHealth := 100, currHealth := 100, recoil := 0 },
             entities := [bul0, zf2, zf1], particles := [], keys := [],
             mouse := { x := 400, y := 300, down := false },
             camera := { x := 0, y := 0, shake := 0 },
             waveTimer := 0, score := 0, isRunning := true, frameCount := 0 },
    view := { score := 0, health := 100, gameOver := false, wave := 1 } }

/-- Non-vacuity of C4: with the bullet in slot 0 overlapping the zombies
in slots 1 and 2, the scan is the single hit at slot 1 and the bullet
ends marked. -/
theorem bullet_resolves_at_most_one_hit_witness :
    scanList rZero 0 bul0 ([0] ++ 1 :: [2]) (demoHit, 0) =
      applyHit rZero 0 1 bul0 zf1 demoHit 0 ∧
    (scanList rZero 0 bul0 ([0] ++ 1 :: [2]) (demoHit, 0)).1.sim.entities[0]? =
      some { bul0 with markedForDeletion := true } := by
  have H := (bullet_resolves_at_most_one_hit rZero 0 bul0).2 [0] [2] 1 demoHit 0 zf1
    (by
      intro j hj
      rw [List.mem_singleton] at hj
      subst hj
      rintro ⟨e, he, hz, -, -⟩
      rw [show demoHit.sim.entities[0]? = some bul0 from rfl] at he
      injection he with he'
      rw [← he'] at hz
      simp [bul0, isZombie] at hz)
    rfl rfl rfl
    (by norm_num [bul0, zf1, vecSub, vecLen_zero_vec])
    rfl rfl
  exact ⟨H.1, H.2.1⟩

/-- Non-vacuity of C5: the hit on the wounded zombie in slot 1 kills it,
adds its reward to the score and leaves the marked corpse in the slot. -/
theorem enemy_death_reward_and_bursts_witness :
    (applyHit rZero 0 1 bul0 zf2 demoHit2 0).1.sim.score =
      demoHit2.sim.score + (if zf2.type = EntityType.ZOMBIE_TANK then 50 else 10) ∧
    (applyHit rZero 0 1 bul0 zf2 demoHit2 0).1.sim.entities[1]? =
      some { zf2 with life := zf2.life - 25,
                      pos := vecAdd zf2.pos (vecMult (vecNorm bul0.vel) 4),
                      markedForDeletion := true } := by
  have H := (enemy_death_reward_and_bursts rZero).1 0 1 bul0 zf2 demoHit2 0 rfl
    (by norm_num [zf2])
  exact ⟨H.2.1, H.1⟩
